import Mathlib

/-!
Verification of the decision-orchestration core in
`src/hooks/useAutonomousAI.ts`.

The hook is shallowly embedded: JS numbers are modelled as `ℚ`,
nullable/optional values as `Option`, JS object mappings by the list of
their values (only `Object.values` is ever used on them), throwing
collaborators as `Except Unit` valued functions, and the side effects of
one orchestration cycle (collaborator invocations and toast
notifications) as an explicit trace.
-/

namespace AutonomousAI

/-- One entry of the `detailedResults` mapping: `{found, buyScore?, sellScore?}`
(data model consumed by `calculateMarketNoise`). -/
structure PatternResult where
  found : Bool
  buyScore : Option ℚ
  sellScore : Option ℚ
  deriving DecidableEq

/-- JS `x || 0` on an optional number score, as used in
`(r.buyScore || 0)`: an absent score reads as `0` (a present `0` also
reads as `0`, so `getD` is exact here). -/
def scoreOrZero (x : Option ℚ) : ℚ := x.getD 0

/-- Embedding of `calculateMarketNoise` (source lines 145-154).
`detailedResults` is `none` when the JS value is null/undefined, otherwise
the list of the mapping's values. -/
def calculateMarketNoise (detailedResults : Option (List PatternResult)) : ℚ :=
  match detailedResults with
  | none => 50
  | some results =>
    let patterns := results.filter (fun r => r.found)
    let conflicting := (patterns.filter (fun r =>
        |scoreOrZero r.buyScore - scoreOrZero r.sellScore| < 3/10)).length
    min 100 ((conflicting : ℚ) / max 1 (patterns.length : ℚ) * 100)

/-- Shared evaluation lemma: when at least one entry passes the `found`
filter and every such entry is "conflicting", the noise formula yields 100. -/
theorem noise_all_conflicting (l : List PatternResult)
    (hne : l.filter (fun r => r.found) ≠ [])
    (hall : ∀ r ∈ l.filter (fun r => r.found),
      |scoreOrZero r.buyScore - scoreOrZero r.sellScore| < 3/10) :
    calculateMarketNoise (some l) = 100 := by
  unfold calculateMarketNoise
  have hfilter : (l.filter (fun r => r.found)).filter (fun r =>
      |scoreOrZero r.buyScore - scoreOrZero r.sellScore| < 3/10)
      = l.filter (fun r => r.found) := by
    rw [List.filter_eq_self]
    intro a ha
    simpa using hall a ha
  simp only [hfilter]
  have hn : (l.filter (fun r => r.found)).length ≠ 0 := by
    simpa [List.length_eq_zero] using hne
  have h1 : (1 : ℚ) ≤ ((l.filter (fun r => r.found)).length : ℚ) := by
    exact_mod_cast Nat.one_le_iff_ne_zero.mpr hn
  have hne' : ((l.filter (fun r => r.found)).length : ℚ) ≠ 0 := by
    exact_mod_cast hn
  rw [max_eq_right h1, div_self hne', one_mul, min_self]

/-- Shared evaluation lemma: when no entry passes the `found` filter the
noise formula yields 0 (not the null-input default 50). -/
theorem noise_no_found (l : List PatternResult)
    (hall : ∀ r ∈ l, r.found = false) :
    calculateMarketNoise (some l) = 0 := by
  unfold calculateMarketNoise
  have hfilter : l.filter (fun r => r.found) = [] := by
    rw [List.filter_eq_nil_iff]
    intro a ha
    simp [hall a ha]
  simp only [hfilter]
  norm_num

/-- Trading action of a decision. Modelled from the spec: the
`AutonomousDecision` type lives in `utils/autonomousDecision` (outside the
provided sources); the spec gives `action: enum{BUY, SELL, WAIT}`. -/
inductive TradeAction where
  | BUY
  | SELL
  | WAIT
  deriving DecidableEq

/-- Timing block of a decision (`{enter_now, wait_seconds}`). -/
structure Timing where
  enter_now : Bool
  wait_seconds : ℚ
  deriving DecidableEq

/-- Market grade. Modelled from the spec: `market_grade: enum{A,B,C,D}`. -/
inductive MarketGrade where
  | A
  | B
  | C
  | D
  deriving DecidableEq

/-- The letter the grade renders as in notification titles (in the source
the grade is already a string; the enum is rendered back to it). -/
def MarketGrade.str : MarketGrade → String
  | .A => "A"
  | .B => "B"
  | .C => "C"
  | .D => "D"

/-- `professional_analysis` block of a decision. -/
structure ProfessionalAnalysis where
  market_grade : MarketGrade
  confluences : ℚ
  deriving DecidableEq

/-- Modelled from the spec: the fields of `AutonomousDecision` used by the
hook (`action`, `confidence`, `expected_success_rate`, `timing`,
`professional_analysis`). -/
structure AutonomousDecision where
  action : TradeAction
  confidence : ℚ
  expected_success_rate : ℚ
  timing : Timing
  professional_analysis : ProfessionalAnalysis
  deriving DecidableEq

/-- A micro-pattern entry: payload the hook passes through without
inspecting, modelled as an uninterpreted tag. -/
structure MicroPattern where
  tag : String
  deriving DecidableEq

/-- The nested `priceAction` object inside `visualAnalysis`; only its
optional `volatility` number is read. -/
structure PriceAction where
  volatility : Option ℚ
  deriving DecidableEq

/-- The `visualAnalysis` payload; the hook reads the optional paths
`priceAction.volatility` and `trendStrength` and otherwise passes the
object through. -/
structure VisualAnalysis where
  priceAction : Option PriceAction
  trendStrength : Option ℚ
  deriving DecidableEq

/-- The `timing` payload of the enhanced analysis: passed through without
inspection, modelled as an uninterpreted tag. -/
structure TimingAnalysis where
  tag : String
  deriving DecidableEq

/-- The `enhancedAnalysisResult` argument of the hook: three optional
fields (`undefined`/`null` becomes `none`). -/
structure EnhancedAnalysisResult where
  microPatterns : Option (List MicroPattern)
  visualAnalysis : Option VisualAnalysis
  timing : Option TimingAnalysis
  deriving DecidableEq

/-- JS `x || d` on an optional number: both an absent value and a present
`0` are falsy, so both coerce to the default. -/
def jsOr (x : Option ℚ) (d : ℚ) : ℚ :=
  match x with
  | none => d
  | some v => if v = 0 then d else v

/-- `market_conditions` block of the decision factors. -/
structure MarketConditions where
  volatility : ℚ
  noise : ℚ
  trend_strength : ℚ
  deriving DecidableEq

/-- The `DecisionFactors` structure assembled by the hook (source lines
45-55). `technical_indicators` is the `detailedResults` mapping passed
through verbatim. -/
structure DecisionFactors where
  micro_patterns : List MicroPattern
  visual_analysis : VisualAnalysis
  market_conditions : MarketConditions
  timing_analysis : TimingAnalysis
  technical_indicators : List PatternResult
  deriving DecidableEq

/-- The empty JS object `{}` used as default for `visualAnalysis` (it has
neither of the two optional paths the hook reads). -/
def emptyVisualAnalysis : VisualAnalysis := { priceAction := none, trendStrength := none }

/-- The empty JS object `{}` used as default for `timing`. -/
def emptyTimingAnalysis : TimingAnalysis := { tag := "" }

/-- Embedding of the factor construction (source lines 45-55). `detailed`
is the list of values of the (non-null, gated) `detailedResults` mapping.
A JS array or object is truthy even when empty, so `microPatterns || []`
and `visualAnalysis || {}` default only on absence (`Option.getD`), while
the numeric reads `... || 50` go through `jsOr` (0 is falsy). -/
def buildFactors (detailed : List PatternResult) (e : EnhancedAnalysisResult) :
    DecisionFactors :=
  { micro_patterns := e.microPatterns.getD []
    visual_analysis := e.visualAnalysis.getD emptyVisualAnalysis
    market_conditions :=
      { volatility :=
          jsOr ((e.visualAnalysis.bind fun va => va.priceAction).bind fun pa => pa.volatility) 50
        noise := calculateMarketNoise (some detailed)
        trend_strength := jsOr (e.visualAnalysis.bind fun va => va.trendStrength) 50 }
    timing_analysis := e.timing.getD emptyTimingAnalysis
    technical_indicators := detailed }

/-- The four toast severities used by the hook
(`toast.success/info/warning/error`). -/
inductive Severity where
  | success
  | info
  | warning
  | error
  deriving DecidableEq

/-- One delivered toast: severity, title (first argument) and the optional
options object (`description`, `duration`). `toast.error` passes no
options, hence the `Option` fields. -/
structure Notification where
  severity : Severity
  title : String
  description : Option String
  duration : Option Nat
  deriving DecidableEq

/-- The `currentRisk` observable of the advanced-trading collaborator;
only `totalRisk` is read (for the notification text). -/
structure CurrentRisk where
  totalRisk : ℚ
  deriving DecidableEq

/-- The `positionSizing` observable of the advanced-trading collaborator;
only `recommendedSize` is read. -/
structure PositionSizing where
  recommendedSize : ℚ
  deriving DecidableEq

/-- `actionText` (source lines 93-94). -/
def actionText : TradeAction → String
  | .BUY => "COMPRAR"
  | .SELL => "VENDER"
  | .WAIT => "AGUARDAR"

/-- `emoji` (source lines 96-97). -/
def actionEmoji : TradeAction → String
  | .BUY => "📈"
  | .SELL => "📉"
  | .WAIT => "⏳"

/-- `gradeEmoji` (source lines 99-101): trophy / silver / bronze / chart. -/
def gradeEmoji : MarketGrade → String
  | .A => "🏆"
  | .B => "🥈"
  | .C => "🥉"
  | .D => "📊"

/-- Embedding of the notification rendering (source lines 93-133): the
pure function from a decision plus the optional risk context to the toast
that is delivered. Numbers interpolated into the template literals are
rendered with `toString`. -/
def presentNotification (decision : AutonomousDecision)
    (currentRisk : Option CurrentRisk) (positionSizing : Option PositionSizing) :
    Notification :=
  let txt := actionText decision.action
  let emo := actionEmoji decision.action
  let ge := gradeEmoji decision.professional_analysis.market_grade
  let gs := (decision.professional_analysis.market_grade).str
  if decision.action ≠ .WAIT then
    let riskInfo := match currentRisk with
      | some cr => " | Risco: " ++ toString cr.totalRisk
      | none => ""
    let positionInfo := match positionSizing with
      | some ps => " | Size: " ++ toString ps.recommendedSize
      | none => ""
    if decision.timing.enter_now then
      { severity := .success
        title := emo ++ " IA DECIDE: " ++ txt ++ " AGORA! " ++ ge ++ " Grade " ++ gs
        description := some (toString decision.confidence ++ "% confiança | Sucesso: "
          ++ toString decision.expected_success_rate ++ "%" ++ riskInfo ++ positionInfo)
        duration := some 6000 }
    else
      { severity := .info
        title := emo ++ " IA DECIDE: " ++ txt ++ " em " ++ toString decision.timing.wait_seconds
          ++ "s " ++ ge ++ " Grade " ++ gs
        description := some (toString decision.confidence
          ++ "% confiança | Timing ótimo em breve" ++ riskInfo)
        duration := some 6000 }
  else
    { severity := .warning
      title := "⏳ IA DECIDE: AGUARDAR " ++ ge ++ " Grade " ++ gs
      description := some (toString decision.confidence
        ++ "% confiança | Condições não favoráveis")
      duration := some 5000 }

/-- The generic error toast of the catch block (source line 138). -/
def errorToast : Notification :=
  { severity := .error
    title := "Erro na análise autônoma da IA"
    description := none
    duration := none }

/-- Executable contiguous-substring test on character lists, used to state
the "title/body contains ..." properties. -/
def listSeg (s p : List Char) : Bool :=
  (List.range (s.length + 1)).any fun i => ((s.drop i).take p.length) == p

/-- Executable contiguous-substring test on strings. -/
def strContains (s p : String) : Bool := listSeg s.data p.data

/-- A list contains every segment it starts with. -/
theorem listSeg_front (p t : List Char) : listSeg (p ++ t) p = true := by
  unfold listSeg
  rw [List.any_eq_true]
  refine ⟨0, ?_, ?_⟩
  · simp
  · simp

/-- A list contains every segment it ends with. -/
theorem listSeg_back (s p : List Char) : listSeg (s ++ p) p = true := by
  unfold listSeg
  rw [List.any_eq_true]
  refine ⟨s.length, ?_, ?_⟩
  · simp [Nat.lt_succ_of_le]
  · rw [List.drop_left, List.take_length]
    simp

/-- One element of the `fastAnalysisResults` array; the hook reads its
`direction` string and `confidence`. -/
structure FastResult where
  direction : String
  confidence : ℚ
  deriving DecidableEq

/-- One mapped entry of the backtest request (source lines 82-87). -/
structure BacktestEntry where
  action : TradeAction
  confidence : ℚ
  confluences : ℚ
  timeframe : String
  deriving DecidableEq

/-- The mapping applied to each fast-analysis result before the backtest
call (source lines 82-87): `up`→BUY, `down`→SELL, anything else→WAIT;
`confluences` is the hard-coded placeholder 2. -/
def mapBacktestEntry (tf : String) (r : FastResult) : BacktestEntry :=
  { action := if r.direction = "up" then .BUY
      else if r.direction = "down" then .SELL else .WAIT
    confidence := r.confidence
    confluences := 2
    timeframe := tf }

/-- The assessment request passed to `evaluateSignalRisk` (source lines
67-75): the spread decision plus timeframe, the placeholder entry price
100, direction-keyed stop-loss 98/102 and take-profit 104/96, the
volatility from the factors and the decision's confluences. -/
structure RiskRequest where
  decision : AutonomousDecision
  timeframe : String
  entry_price : ℚ
  stop_loss : ℚ
  take_profit : ℚ
  volatility : ℚ
  confluences : ℚ
  deriving DecidableEq

/-- Builds the `evaluateSignalRisk` argument (source lines 67-75). -/
def mkRiskRequest (decision : AutonomousDecision) (tf : String)
    (factors : DecisionFactors) : RiskRequest :=
  { decision := decision
    timeframe := tf
    entry_price := 100
    stop_loss := if decision.action = .BUY then 98 else 102
    take_profit := if decision.action = .BUY then 104 else 96
    volatility := factors.market_conditions.volatility
    confluences := decision.professional_analysis.confluences }

/-- The hook's own state: the stored decision (`aiDecision`) and the busy
flag (`isProcessing`). -/
structure OrchestratorState where
  aiDecision : Option AutonomousDecision
  isProcessing : Bool
  deriving DecidableEq

/-- Trace of the observable effects of one cycle: each invocation of the
decision function (with its factors), of `evaluateSignalRisk` (with its
request), of `performBacktest` (with its mapped entries), and each
delivered toast, in order of occurrence within their kind. -/
structure CycleEffects where
  decisionCalls : List DecisionFactors
  riskCalls : List RiskRequest
  backtestCalls : List (List BacktestEntry)
  notifications : List Notification
  deriving DecidableEq

/-- The empty trace: nothing was invoked, nothing was delivered. -/
def emptyEffects : CycleEffects :=
  { decisionCalls := [], riskCalls := [], backtestCalls := [], notifications := [] }

/-- The external collaborators of one cycle (spec section 6): the decision
function from `utils/autonomousDecision` and the advanced-trading hook's
`evaluateSignalRisk` / `performBacktest`, each of which may throw
(`Except Unit`), plus the collaborator's `currentRisk` / `positionSizing`
observables read by the notification text. -/
structure Env where
  makeDecision : DecisionFactors → String → String → Except Unit AutonomousDecision
  evalRisk : RiskRequest → Except Unit Unit
  runBacktest : List BacktestEntry → Except Unit Unit
  currentRisk : Option CurrentRisk
  positionSizing : Option PositionSizing

/-- The tail of the try block after the risk step (source lines 80-133):
conditional backtest (more than 5 fast results), then `isProcessing :=
false` and the decision toast; a backtest throw falls to the catch block
(error toast, `isProcessing := false`). -/
def afterRiskStep (env : Env) (decision : AutonomousDecision)
    (factors : DecisionFactors) (fast : List FastResult) (tf : String)
    (riskCalls : List RiskRequest) (st : OrchestratorState) :
    OrchestratorState × CycleEffects :=
  if 5 < fast.length then
    let entries := fast.map (mapBacktestEntry tf)
    match env.runBacktest entries with
    | .error _ =>
        ({ st with isProcessing := false },
         { decisionCalls := [factors], riskCalls := riskCalls,
           backtestCalls := [entries], notifications := [errorToast] })
    | .ok _ =>
        ({ st with isProcessing := false },
         { decisionCalls := [factors], riskCalls := riskCalls,
           backtestCalls := [entries],
           notifications := [presentNotification decision env.currentRisk env.positionSizing] })
  else
    ({ st with isProcessing := false },
     { decisionCalls := [factors], riskCalls := riskCalls, backtestCalls := [],
       notifications := [presentNotification decision env.currentRisk env.positionSizing] })

/-- The body of the scheduled timeout (source lines 60-140), run when the
timer fires: try { decision; store it; conditional risk evaluation;
conditional backtest; `isProcessing := false`; decision toast } catch
{ `isProcessing := false`; error toast }. Note that the new decision is
stored before the enrichment steps, so a throw inside them leaves the new
decision in place. -/
def runTimeoutBody (env : Env) (factors : DecisionFactors)
    (fast : List FastResult) (tf mt : String) (st : OrchestratorState) :
    OrchestratorState × CycleEffects :=
  match env.makeDecision factors tf mt with
  | .error _ =>
      ({ st with isProcessing := false },
       { decisionCalls := [factors], riskCalls := [], backtestCalls := [],
         notifications := [errorToast] })
  | .ok decision =>
      let st1 := { st with aiDecision := some decision }
      if decision.action = .WAIT then
        afterRiskStep env decision factors fast tf [] st1
      else
        let req := mkRiskRequest decision tf factors
        match env.evalRisk req with
        | .error _ =>
            ({ st1 with isProcessing := false },
             { decisionCalls := [factors], riskCalls := [req], backtestCalls := [],
               notifications := [errorToast] })
        | .ok _ => afterRiskStep env decision factors fast tf [req] st1

/-- One full reaction of the effect (source lines 32-142) to an upstream
update, with the scheduled timeout run to completion: the two gating
guards, then `isProcessing := true`, factor construction, and the timeout
body. Returns the state after the cycle and the effect trace. -/
def runEffect (env : Env) (detailedResults : Option (List PatternResult))
    (enhanced : Option EnhancedAnalysisResult) (fast : List FastResult)
    (tf mt : String) (st : OrchestratorState) :
    OrchestratorState × CycleEffects :=
  match detailedResults with
  | none => (st, emptyEffects)
  | some rs =>
    if rs.isEmpty then (st, emptyEffects)
    else
      match enhanced with
      | none => (st, emptyEffects)
      | some e =>
        if e.microPatterns.isNone then (st, emptyEffects)
        else
          runTimeoutBody env (buildFactors rs e) fast tf mt
            { st with isProcessing := true }

/-- C1, counterexample. The claim states that every mapping with zero
`found` entries yields noise 50, but the code returns 50 only for a
null/absent mapping: a present mapping whose single entry has `found =
false` (so no entry has `found` true) yields 0, not 50. -/
theorem C1_counterexample :
    (∀ r ∈ [PatternResult.mk false (some 1) (some 2)], r.found = false) ∧
    calculateMarketNoise (some [PatternResult.mk false (some 1) (some 2)]) = 0 ∧
    calculateMarketNoise (some [PatternResult.mk false (some 1) (some 2)]) ≠ 50 := by
  refine ⟨by simp, noise_no_found _ (by simp), ?_⟩
  rw [noise_no_found _ (by simp)]
  norm_num

/-- C1, amended. `calculateMarketNoise` returns 50 exactly when the input
mapping is null/absent; a present mapping with zero `found` entries
(including the empty mapping) yields 0. -/
theorem C1_noise_no_found_entries :
    calculateMarketNoise none = 50 ∧
    ∀ l : List PatternResult, (∀ r ∈ l, r.found = false) →
      calculateMarketNoise (some l) = 0 :=
  ⟨rfl, noise_no_found⟩

/-- C1, witness: the amended theorem applied to a concrete one-entry
mapping with no `found` entry. -/
theorem C1_noise_no_found_entries_witness :
    (∀ r ∈ [PatternResult.mk false none none], r.found = false) ∧
    calculateMarketNoise (some [PatternResult.mk false none none]) = 0 :=
  ⟨by simp, C1_noise_no_found_entries.2 _ (by simp)⟩

/-- C7, counterexample. The claim quantifies over all mappings in which
every `found` entry is conflicting; a mapping whose single entry has
`found = false` satisfies that vacuously, yet the code returns 0, not
100 (the claim's zero-`found` boundary collides with C1's). -/
theorem C7_counterexample :
    (∀ r ∈ [PatternResult.mk false (some 5) (some 1)], r.found = true →
      |scoreOrZero r.buyScore - scoreOrZero r.sellScore| < 3/10) ∧
    calculateMarketNoise (some [PatternResult.mk false (some 5) (some 1)]) ≠ 100 := by
  refine ⟨by simp, ?_⟩
  rw [noise_no_found _ (by simp)]
  norm_num

/-- C7, amended. For every mapping with at least one `found` entry, if
every `found` entry has `|buyScore − sellScore| < 0.3` (scores defaulting
to 0 when absent) then `calculateMarketNoise` returns 100. -/
theorem C7_noise_all_conflicting_is_hundred :
    ∀ l : List PatternResult, (∃ r ∈ l, r.found = true) →
      (∀ r ∈ l, r.found = true →
        |scoreOrZero r.buyScore - scoreOrZero r.sellScore| < 3/10) →
      calculateMarketNoise (some l) = 100 := by
  intro l hex hall
  obtain ⟨r, hr, hf⟩ := hex
  apply noise_all_conflicting
  · exact List.ne_nil_of_mem (List.mem_filter.mpr ⟨hr, by simp [hf]⟩)
  · intro a ha
    have ha' := List.mem_filter.mp ha
    exact hall a ha'.1 (by simpa using ha'.2)

/-- C7, witness: the amended theorem applied to a concrete mapping with
one `found`, conflicting entry. -/
theorem C7_noise_all_conflicting_is_hundred_witness :
    (∃ r ∈ [PatternResult.mk true (some (1/10)) (some 0)], r.found = true) ∧
    calculateMarketNoise (some [PatternResult.mk true (some (1/10)) (some 0)]) = 100 := by
  constructor
  · exact ⟨PatternResult.mk true (some (1/10)) (some 0), by simp, rfl⟩
  · apply C7_noise_all_conflicting_is_hundred
    · exact ⟨PatternResult.mk true (some (1/10)) (some 0), by simp, rfl⟩
    · intro r hr hf
      simp only [List.mem_singleton] at hr
      subst hr
      simp only [scoreOrZero, Option.getD_some]
      rw [sub_zero, abs_of_nonneg (by norm_num : (0:ℚ) ≤ 1/10)]
      norm_num

/-- C10, confirmed. An entry with `found = true` and both scores absent is
counted as conflicting (both scores coerce to 0 and `|0 − 0| < 0.3`), so a
non-empty mapping consisting only of such entries yields noise 100. -/
theorem C10_noise_missing_scores_conflicting :
    ∀ l : List PatternResult, l ≠ [] →
      (∀ r ∈ l, r.found = true ∧ r.buyScore = none ∧ r.sellScore = none) →
      calculateMarketNoise (some l) = 100 := by
  intro l hne hall
  have hfound : ∀ r ∈ l, r.found = true := fun r hr => (hall r hr).1
  have hfilter : l.filter (fun r => r.found) = l := by
    rw [List.filter_eq_self]
    intro a ha
    simp [hfound a ha]
  apply noise_all_conflicting
  · rw [hfilter]; exact hne
  · intro a ha
    rw [hfilter] at ha
    obtain ⟨-, hb, hs⟩ := hall a ha
    rw [hb, hs]
    simp only [scoreOrZero, Option.getD_none]
    norm_num

/-- C10, witness: the theorem applied to the concrete mapping with a
single `found` entry whose scores are both absent. -/
theorem C10_noise_missing_scores_conflicting_witness :
    ([PatternResult.mk true none none] ≠ ([] : List PatternResult)) ∧
    calculateMarketNoise (some [PatternResult.mk true none none]) = 100 :=
  ⟨by simp, C10_noise_missing_scores_conflicting _ (by simp) (by simp)⟩

/-- C9, confirmed. The `|| 50` defaults in the factor construction use JS
truthiness, so a present-but-zero `visualAnalysis.priceAction.volatility`
or `visualAnalysis.trendStrength` is replaced by the default 50 exactly
like a missing one. -/
theorem C9_zero_coerced_to_default :
    ∀ (detailed : List PatternResult) (e : EnhancedAnalysisResult) (va : VisualAnalysis),
      e.visualAnalysis = some va →
      ((∀ pa, va.priceAction = some pa → pa.volatility = some 0 →
        (buildFactors detailed e).market_conditions.volatility = 50) ∧
       (va.trendStrength = some 0 →
        (buildFactors detailed e).market_conditions.trend_strength = 50)) := by
  intro detailed e va hva
  constructor
  · intro pa hpa hv
    simp [buildFactors, hva, hpa, hv, jsOr]
  · intro ht
    simp [buildFactors, hva, ht, jsOr]

/-- Concrete enhanced-analysis payload whose nested volatility and trend
strength are both present and equal to 0. -/
def enhancedZero : EnhancedAnalysisResult :=
  { microPatterns := some []
    visualAnalysis := some { priceAction := some { volatility := some 0 }, trendStrength := some 0 }
    timing := none }

/-- C9, witness: the theorem applied to a concrete payload carrying
literal zeros on both paths. -/
theorem C9_zero_coerced_to_default_witness :
    enhancedZero.visualAnalysis
      = some { priceAction := some { volatility := some 0 }, trendStrength := some 0 } ∧
    (buildFactors [] enhancedZero).market_conditions.volatility = 50 ∧
    (buildFactors [] enhancedZero).market_conditions.trend_strength = 50 := by
  refine ⟨rfl, ?_, ?_⟩
  · exact (C9_zero_coerced_to_default [] enhancedZero _ rfl).1 _ rfl rfl
  · exact (C9_zero_coerced_to_default [] enhancedZero _ rfl).2 rfl

/-- Rendering of the confidence literal 80 used by C4. -/
theorem toString_eighty : toString (80 : ℚ) = "80" := rfl

/-- C4, confirmed. For every decision with `action = BUY`, `confidence =
80`, `timing.enter_now = true` and grade A, the rendered toast is
`success`, its title carries the BUY action marker (the source renders it
in Portuguese as "COMPRAR"), the immediacy marker ("AGORA", the source's
"NOW") and the grade-A trophy, and its body carries "80". -/
theorem C4_buy_now_gradeA :
    ∀ (d : AutonomousDecision) (rc : Option CurrentRisk) (ps : Option PositionSizing),
      d.action = .BUY → d.confidence = 80 → d.timing.enter_now = true →
      d.professional_analysis.market_grade = .A →
      (presentNotification d rc ps).severity = .success ∧
      strContains (presentNotification d rc ps).title "COMPRAR" = true ∧
      strContains (presentNotification d rc ps).title "AGORA" = true ∧
      strContains (presentNotification d rc ps).title "🏆" = true ∧
      ∃ body, (presentNotification d rc ps).description = some body ∧
        strContains body "80" = true := by
  intro d rc ps ha hc he hg
  obtain ⟨a, c, esr, t, pa⟩ := d
  obtain ⟨en, ws⟩ := t
  obtain ⟨g, cf⟩ := pa
  dsimp only at ha hc he hg
  subst ha
  subst hc
  subst he
  subst hg
  refine ⟨rfl, ?_, ?_, ?_, ⟨_, rfl, ?_⟩⟩
  · show strContains ("📈" ++ " IA DECIDE: " ++ "COMPRAR" ++ " AGORA! " ++ "🏆" ++ " Grade "
      ++ "A") "COMPRAR" = true
    decide
  · show strContains ("📈" ++ " IA DECIDE: " ++ "COMPRAR" ++ " AGORA! " ++ "🏆" ++ " Grade "
      ++ "A") "AGORA" = true
    decide
  · show strContains ("📈" ++ " IA DECIDE: " ++ "COMPRAR" ++ " AGORA! " ++ "🏆" ++ " Grade "
      ++ "A") "🏆" = true
    decide
  · rw [toString_eighty]
    simp only [strContains, String.data_append, List.append_assoc]
    exact listSeg_front _ _

/-- Concrete BUY decision used by the C4 witness. -/
def decisionBuyNow : AutonomousDecision :=
  { action := .BUY
    confidence := 80
    expected_success_rate := 75
    timing := { enter_now := true, wait_seconds := 0 }
    professional_analysis := { market_grade := .A, confluences := 3 } }

/-- C4, witness: the theorem applied to a concrete grade-A BUY-now
decision without risk context. -/
theorem C4_buy_now_gradeA_witness :
    decisionBuyNow.action = .BUY ∧ decisionBuyNow.confidence = 80 ∧
    decisionBuyNow.timing.enter_now = true ∧
    decisionBuyNow.professional_analysis.market_grade = .A ∧
    ((presentNotification decisionBuyNow none none).severity = .success ∧
     strContains (presentNotification decisionBuyNow none none).title "COMPRAR" = true ∧
     strContains (presentNotification decisionBuyNow none none).title "AGORA" = true ∧
     strContains (presentNotification decisionBuyNow none none).title "🏆" = true ∧
     ∃ body, (presentNotification decisionBuyNow none none).description = some body ∧
       strContains body "80" = true) :=
  ⟨rfl, rfl, rfl, rfl, C4_buy_now_gradeA decisionBuyNow none none rfl rfl rfl rfl⟩

/-- C8, confirmed. For every decision with `action = WAIT`, whatever its
confidence, the rendered toast is `warning`, its title carries the market
grade letter, and its body carries the rendered confidence and the fixed
"Condições não favoráveis" (conditions unfavorable) message. -/
theorem C8_wait_warning :
    ∀ (d : AutonomousDecision) (rc : Option CurrentRisk) (ps : Option PositionSizing),
      d.action = .WAIT →
      (presentNotification d rc ps).severity = .warning ∧
      strContains (presentNotification d rc ps).title
        d.professional_analysis.market_grade.str = true ∧
      ∃ body, (presentNotification d rc ps).description = some body ∧
        strContains body (toString d.confidence) = true ∧
        strContains body "Condições não favoráveis" = true := by
  intro d rc ps ha
  obtain ⟨a, c, esr, t, pa⟩ := d
  obtain ⟨en, ws⟩ := t
  obtain ⟨g, cf⟩ := pa
  dsimp only at ha
  subst ha
  refine ⟨rfl, ?_, ⟨_, rfl, ?_, ?_⟩⟩
  · show strContains ("⏳ IA DECIDE: AGUARDAR " ++ gradeEmoji g ++ " Grade "
      ++ MarketGrade.str g) (MarketGrade.str g) = true
    unfold strContains
    rw [String.data_append]
    exact listSeg_back _ _
  · unfold strContains
    rw [String.data_append]
    exact listSeg_front _ _
  · unfold strContains
    rw [String.data_append]
    have hsplit : ("% confiança | Condições não favoráveis" : String).data
        = ("% confiança | " : String).data ++ ("Condições não favoráveis" : String).data := rfl
    rw [hsplit, ← List.append_assoc]
    exact listSeg_back _ _

/-- Concrete WAIT decision used by the C8 witness. -/
def decisionWait : AutonomousDecision :=
  { action := .WAIT
    confidence := 42
    expected_success_rate := 0
    timing := { enter_now := false, wait_seconds := 10 }
    professional_analysis := { market_grade := .B, confluences := 1 } }

/-- C8, witness: the theorem applied to a concrete grade-B WAIT decision
with a risk context present (which the WAIT branch ignores). -/
theorem C8_wait_warning_witness :
    decisionWait.action = .WAIT ∧
    ((presentNotification decisionWait (some ⟨7⟩) none).severity = .warning ∧
     strContains (presentNotification decisionWait (some ⟨7⟩) none).title
       decisionWait.professional_analysis.market_grade.str = true ∧
     ∃ body, (presentNotification decisionWait (some ⟨7⟩) none).description = some body ∧
       strContains body (toString decisionWait.confidence) = true ∧
       strContains body "Condições não favoráveis" = true) :=
  ⟨rfl, C8_wait_warning decisionWait (some ⟨7⟩) none rfl⟩

/-- Reduction lemma: with both gates open, a cycle is the timeout body on
the built factors, started with the busy flag raised. -/
theorem runEffect_open {env : Env} {rs : List PatternResult}
    {e : EnhancedAnalysisResult} {fast : List FastResult} {tf mt : String}
    {st : OrchestratorState} (h1 : rs ≠ []) (h2 : e.microPatterns.isSome = true) :
    runEffect env (some rs) (some e) fast tf mt st
      = runTimeoutBody env (buildFactors rs e) fast tf mt
          { st with isProcessing := true } := by
  unfold runEffect
  have hne : rs.isEmpty = false := by
    cases rs with
    | nil => exact absurd rfl h1
    | cons a l => rfl
  have hnn : e.microPatterns.isNone = false := by
    rcases hmp : e.microPatterns with _ | mp
    · rw [hmp] at h2
      simp at h2
    · rfl
  simp [hne, hnn]

/-- Reduction lemma: a throwing decision function sends the timeout body
straight to the catch block. -/
theorem runTimeoutBody_throw {env : Env} {factors : DecisionFactors}
    {fast : List FastResult} {tf mt : String} {st : OrchestratorState}
    (hd : env.makeDecision factors tf mt = .error ()) :
    runTimeoutBody env factors fast tf mt st
      = ({ st with isProcessing := false },
         { decisionCalls := [factors], riskCalls := [], backtestCalls := [],
           notifications := [errorToast] }) := by
  unfold runTimeoutBody
  rw [hd]

/-- Reduction lemma: a successful decision function stores the decision
and continues with the risk step. -/
theorem runTimeoutBody_ok {env : Env} {factors : DecisionFactors}
    {fast : List FastResult} {tf mt : String} {st : OrchestratorState}
    {d : AutonomousDecision} (hd : env.makeDecision factors tf mt = .ok d) :
    runTimeoutBody env factors fast tf mt st
      = (if d.action = .WAIT then
          afterRiskStep env d factors fast tf [] { st with aiDecision := some d }
        else
          match env.evalRisk (mkRiskRequest d tf factors) with
          | .error _ =>
              ({ st with aiDecision := some d, isProcessing := false },
               { decisionCalls := [factors],
                 riskCalls := [mkRiskRequest d tf factors], backtestCalls := [],
                 notifications := [errorToast] })
          | .ok _ =>
              afterRiskStep env d factors fast tf [mkRiskRequest d tf factors]
                { st with aiDecision := some d }) := by
  unfold runTimeoutBody
  rw [hd]

/-- The tail of the try block never alters the risk-call trace it is
handed. -/
theorem afterRiskStep_riskCalls {env : Env} {d : AutonomousDecision}
    {factors : DecisionFactors} {fast : List FastResult} {tf : String}
    {rc : List RiskRequest} {st : OrchestratorState} :
    (afterRiskStep env d factors fast tf rc st).2.riskCalls = rc := by
  unfold afterRiskStep
  split
  · dsimp only
    split <;> rfl
  · rfl

/-- The tail of the try block records the decision-function invocation. -/
theorem afterRiskStep_decisionCalls {env : Env} {d : AutonomousDecision}
    {factors : DecisionFactors} {fast : List FastResult} {tf : String}
    {rc : List RiskRequest} {st : OrchestratorState} :
    (afterRiskStep env d factors fast tf rc st).2.decisionCalls = [factors] := by
  unfold afterRiskStep
  split
  · dsimp only
    split <;> rfl
  · rfl

/-- The tail of the try block invokes the backtest exactly once when more
than 5 fast results are present, and never otherwise, whether or not the
backtest call throws. -/
theorem afterRiskStep_backtestCalls {env : Env} {d : AutonomousDecision}
    {factors : DecisionFactors} {fast : List FastResult} {tf : String}
    {rc : List RiskRequest} {st : OrchestratorState} :
    (afterRiskStep env d factors fast tf rc st).2.backtestCalls
      = if 5 < fast.length then [fast.map (mapBacktestEntry tf)] else [] := by
  unfold afterRiskStep
  by_cases hf : 5 < fast.length
  · rw [if_pos hf, if_pos hf]
    dsimp only
    split <;> rfl
  · rw [if_neg hf, if_neg hf]

/-- The tail of the try block always ends with the busy flag lowered and
the stored decision untouched. -/
theorem afterRiskStep_state {env : Env} {d : AutonomousDecision}
    {factors : DecisionFactors} {fast : List FastResult} {tf : String}
    {rc : List RiskRequest} {st : OrchestratorState} :
    (afterRiskStep env d factors fast tf rc st).1
      = { st with isProcessing := false } := by
  unfold afterRiskStep
  split
  · dsimp only
    split <;> rfl
  · rfl

/-- A throwing backtest call makes the tail of the try block fall into the
catch block: the generic error toast is the delivered notification. -/
theorem afterRiskStep_backtest_throw {env : Env} {d : AutonomousDecision}
    {factors : DecisionFactors} {fast : List FastResult} {tf : String}
    {rc : List RiskRequest} {st : OrchestratorState} (hf : 5 < fast.length)
    (hb : env.runBacktest (fast.map (mapBacktestEntry tf)) = .error ()) :
    (afterRiskStep env d factors fast tf rc st).2.notifications = [errorToast] := by
  unfold afterRiskStep
  rw [if_pos hf]
  dsimp only
  rw [hb]

/-- C6, confirmed. When the detailed-results payload is absent or empty,
or the enhanced-analysis payload is absent or carries no `microPatterns`,
the cycle performs no pipeline work: the decision function is not
invoked, no collaborator is called, no toast is delivered, and the state
(busy flag and stored decision) is returned unchanged. -/
theorem C6_gate_blocks_pipeline :
    ∀ (env : Env) (dr : Option (List PatternResult))
      (e : Option EnhancedAnalysisResult) (fast : List FastResult)
      (tf mt : String) (st : OrchestratorState),
      (dr = none ∨ dr = some [] ∨ e = none ∨
        ∃ er, e = some er ∧ er.microPatterns = none) →
      runEffect env dr e fast tf mt st = (st, emptyEffects) := by
  intro env dr e fast tf mt st h
  rcases h with h | h | h | ⟨er, he, hm⟩
  · subst h
    rfl
  · subst h
    rfl
  · subst h
    cases dr with
    | none => rfl
    | some rs => simp [runEffect]
  · subst he
    cases dr with
    | none => rfl
    | some rs => simp [runEffect, hm]

/-- C6, witness: the theorem applied to an empty detailed-results mapping
(with an otherwise healthy environment and enhanced payload). -/
theorem C6_gate_blocks_pipeline_witness :
    ((some ([] : List PatternResult) = none ∨ some ([] : List PatternResult) = some [] ∨
      (some { microPatterns := some [], visualAnalysis := none, timing := none }
        : Option EnhancedAnalysisResult) = none ∨
      ∃ er, (some { microPatterns := some [], visualAnalysis := none, timing := none }
        : Option EnhancedAnalysisResult) = some er ∧ er.microPatterns = none) ∧
     runEffect
       { makeDecision := fun _ _ _ => .error (), evalRisk := fun _ => .ok ()
         runBacktest := fun _ => .ok (), currentRisk := none, positionSizing := none }
       (some []) (some { microPatterns := some [], visualAnalysis := none, timing := none })
       [] "1m" "otc" { aiDecision := none, isProcessing := false }
       = ({ aiDecision := none, isProcessing := false }, emptyEffects)) :=
  ⟨Or.inr (Or.inl rfl),
    C6_gate_blocks_pipeline _ _ _ _ _ _ _ (Or.inr (Or.inl rfl))⟩

/-- A concrete detected, non-conflicting pattern entry. -/
def patternFound : PatternResult := { found := true, buyScore := some 1, sellScore := some 0 }

/-- A concrete one-entry detailed-results mapping that opens the first
gate. -/
def rsOne : List PatternResult := [patternFound]

/-- A concrete enhanced-analysis payload that opens the second gate (its
`microPatterns` is a present, empty array — truthy in JS). -/
def enhancedOk : EnhancedAnalysisResult :=
  { microPatterns := some [], visualAnalysis := none, timing := none }

/-- The initial hook state: no stored decision, not processing. -/
def stIdle : OrchestratorState := { aiDecision := none, isProcessing := false }

/-- A concrete environment whose decision function returns a grade-A
BUY-now decision and whose collaborators succeed. -/
def envBuyOk : Env :=
  { makeDecision := fun _ _ _ => .ok decisionBuyNow
    evalRisk := fun _ => .ok ()
    runBacktest := fun _ => .ok ()
    currentRisk := none
    positionSizing := none }

/-- `envBuyOk` with a throwing risk evaluation. -/
def envRiskThrow : Env := { envBuyOk with evalRisk := fun _ => .error () }

/-- `envBuyOk` with a throwing decision function. -/
def envDecThrow : Env := { envBuyOk with makeDecision := fun _ _ _ => .error () }

/-- Six concrete fast-analysis results (one of each direction kind among
them). -/
def fastSix : List FastResult :=
  [{ direction := "up", confidence := 60 }, { direction := "down", confidence := 55 },
   { direction := "side", confidence := 50 }, { direction := "up", confidence := 70 },
   { direction := "down", confidence := 65 }, { direction := "up", confidence := 80 }]

/-- C3, counterexample. The claim puts both the stop-loss and the
take-profit at ±2% offsets from the entry price 100; the code places the
take-profit of a BUY at 104 (a +4% offset), not 102. -/
theorem C3_counterexample :
    (runEffect envBuyOk (some rsOne) (some enhancedOk) [] "1m" "otc" stIdle).2.riskCalls
      = [mkRiskRequest decisionBuyNow "1m" (buildFactors rsOne enhancedOk)] ∧
    (mkRiskRequest decisionBuyNow "1m" (buildFactors rsOne enhancedOk)).entry_price = 100 ∧
    (mkRiskRequest decisionBuyNow "1m" (buildFactors rsOne enhancedOk)).take_profit = 104 ∧
    (mkRiskRequest decisionBuyNow "1m" (buildFactors rsOne enhancedOk)).take_profit ≠ 102 := by
  refine ⟨rfl, rfl, rfl, ?_⟩
  show (104 : ℚ) ≠ 102
  norm_num

/-- C3, amended. For every cycle whose decision function returns a
decision: if its action is not WAIT, the risk collaborator is invoked
exactly once, with entry price 100, stop-loss at a −2%/+2% offset (98 for
BUY, 102 otherwise) and take-profit at a +4%/−4% offset (104 for BUY, 96
otherwise); if the action is WAIT it is not invoked at all. -/
theorem C3_risk_invocation :
    ∀ (env : Env) (rs : List PatternResult) (e : EnhancedAnalysisResult)
      (fast : List FastResult) (tf mt : String) (st : OrchestratorState)
      (d : AutonomousDecision),
      rs ≠ [] → e.microPatterns.isSome = true →
      env.makeDecision (buildFactors rs e) tf mt = .ok d →
      ((d.action ≠ .WAIT →
          (runEffect env (some rs) (some e) fast tf mt st).2.riskCalls
            = [mkRiskRequest d tf (buildFactors rs e)] ∧
          (mkRiskRequest d tf (buildFactors rs e)).entry_price = 100 ∧
          (mkRiskRequest d tf (buildFactors rs e)).stop_loss
            = (if d.action = .BUY then 98 else 102) ∧
          (mkRiskRequest d tf (buildFactors rs e)).take_profit
            = (if d.action = .BUY then 104 else 96)) ∧
       (d.action = .WAIT →
          (runEffect env (some rs) (some e) fast tf mt st).2.riskCalls = [])) := by
  intro env rs e fast tf mt st d hrs hmp hd
  rw [runEffect_open hrs hmp, runTimeoutBody_ok hd]
  constructor
  · intro hw
    rw [if_neg hw]
    refine ⟨?_, rfl, rfl, rfl⟩
    rcases hr : env.evalRisk (mkRiskRequest d tf (buildFactors rs e)) with u | u
    · rfl
    · exact afterRiskStep_riskCalls
  · intro hw
    rw [if_pos hw]
    exact afterRiskStep_riskCalls

/-- C3, witness: the amended theorem applied to the concrete BUY cycle. -/
theorem C3_risk_invocation_witness :
    (rsOne ≠ [] ∧ enhancedOk.microPatterns.isSome = true ∧
     envBuyOk.makeDecision (buildFactors rsOne enhancedOk) "1m" "otc" = .ok decisionBuyNow ∧
     decisionBuyNow.action ≠ .WAIT) ∧
    ((runEffect envBuyOk (some rsOne) (some enhancedOk) [] "1m" "otc" stIdle).2.riskCalls
      = [mkRiskRequest decisionBuyNow "1m" (buildFactors rsOne enhancedOk)] ∧
     (mkRiskRequest decisionBuyNow "1m" (buildFactors rsOne enhancedOk)).entry_price = 100 ∧
     (mkRiskRequest decisionBuyNow "1m" (buildFactors rsOne enhancedOk)).stop_loss
       = (if decisionBuyNow.action = .BUY then 98 else 102) ∧
     (mkRiskRequest decisionBuyNow "1m" (buildFactors rsOne enhancedOk)).take_profit
       = (if decisionBuyNow.action = .BUY then 104 else 96)) :=
  ⟨⟨by simp [rsOne], rfl, rfl, by decide⟩,
    (C3_risk_invocation envBuyOk rsOne enhancedOk [] "1m" "otc" stIdle decisionBuyNow
      (by simp [rsOne]) rfl rfl).1 (by decide)⟩

/-- C5, confirmed. In a cycle that runs the pipeline and reaches the
backtest step (the decision function returned a decision and the risk
evaluation, when invoked, did not throw): with strictly more than 5 fast
results the backtest collaborator is invoked exactly once, with one
`mapBacktestEntry`-mapped entry per element; with 5 or fewer it is not
invoked at all. -/
theorem C5_backtest_invocation :
    ∀ (env : Env) (rs : List PatternResult) (e : EnhancedAnalysisResult)
      (fast : List FastResult) (tf mt : String) (st : OrchestratorState)
      (d : AutonomousDecision),
      rs ≠ [] → e.microPatterns.isSome = true →
      env.makeDecision (buildFactors rs e) tf mt = .ok d →
      (d.action ≠ .WAIT → env.evalRisk (mkRiskRequest d tf (buildFactors rs e)) = .ok ()) →
      ((5 < fast.length →
          (runEffect env (some rs) (some e) fast tf mt st).2.backtestCalls
            = [fast.map (mapBacktestEntry tf)] ∧
          (fast.map (mapBacktestEntry tf)).length = fast.length) ∧
       (fast.length ≤ 5 →
          (runEffect env (some rs) (some e) fast tf mt st).2.backtestCalls = [])) := by
  intro env rs e fast tf mt st d hrs hmp hd hrisk
  rw [runEffect_open hrs hmp, runTimeoutBody_ok hd]
  have hbt : ∀ rc st', (afterRiskStep env d (buildFactors rs e) fast tf rc st').2.backtestCalls
      = if 5 < fast.length then [fast.map (mapBacktestEntry tf)] else [] :=
    fun rc st' => afterRiskStep_backtestCalls
  by_cases hw : d.action = .WAIT
  · rw [if_pos hw, hbt]
    constructor
    · intro hf
      rw [if_pos hf]
      exact ⟨rfl, fast.length_map _⟩
    · intro hf
      rw [if_neg (Nat.not_lt.mpr hf)]
  · rw [if_neg hw, hrisk hw, hbt]
    constructor
    · intro hf
      rw [if_pos hf]
      exact ⟨rfl, fast.length_map _⟩
    · intro hf
      rw [if_neg (Nat.not_lt.mpr hf)]

/-- C5, witness: the theorem applied to the concrete BUY cycle with six
fast results (both implications instantiated; the 6-element list is
mapped to 6 backtest entries). -/
theorem C5_backtest_invocation_witness :
    (rsOne ≠ [] ∧ enhancedOk.microPatterns.isSome = true ∧
     envBuyOk.makeDecision (buildFactors rsOne enhancedOk) "1m" "otc" = .ok decisionBuyNow ∧
     (decisionBuyNow.action ≠ .WAIT →
       envBuyOk.evalRisk (mkRiskRequest decisionBuyNow "1m" (buildFactors rsOne enhancedOk))
         = .ok ())) ∧
    ((5 < fastSix.length →
       (runEffect envBuyOk (some rsOne) (some enhancedOk) fastSix "1m" "otc" stIdle).2.backtestCalls
         = [fastSix.map (mapBacktestEntry "1m")] ∧
       (fastSix.map (mapBacktestEntry "1m")).length = fastSix.length) ∧
     (fastSix.length ≤ 5 →
       (runEffect envBuyOk (some rsOne) (some enhancedOk) fastSix "1m" "otc" stIdle).2.backtestCalls
         = [])) :=
  ⟨⟨by simp [rsOne], rfl, rfl, fun _ => rfl⟩,
    C5_backtest_invocation envBuyOk rsOne enhancedOk fastSix "1m" "otc" stIdle decisionBuyNow
      (by simp [rsOne]) rfl rfl (fun _ => rfl)⟩

/-- C2, counterexample. The claim states that an error thrown anywhere in
the cycle leaves the stored decision at its pre-cycle value; but the code
stores the new decision before the enrichment steps, so a throwing risk
evaluation ends the cycle with the freshly computed decision stored (here:
`none` before the cycle, `some decisionBuyNow` after), while `isProcessing`
is false and the generic error toast is delivered. -/
theorem C2_counterexample :
    stIdle.aiDecision = none ∧
    (runEffect envRiskThrow (some rsOne) (some enhancedOk) [] "1m" "otc" stIdle).2.notifications
      = [errorToast] ∧
    (runEffect envRiskThrow (some rsOne) (some enhancedOk) [] "1m" "otc" stIdle).1.isProcessing
      = false ∧
    (runEffect envRiskThrow (some rsOne) (some enhancedOk) [] "1m" "otc" stIdle).1.aiDecision
      = some decisionBuyNow ∧
    (runEffect envRiskThrow (some rsOne) (some enhancedOk) [] "1m" "otc" stIdle).1.aiDecision
      ≠ stIdle.aiDecision := by
  refine ⟨rfl, rfl, rfl, rfl, ?_⟩
  show some decisionBuyNow ≠ none
  simp

/-- C2, amended. In every gated-open cycle in which an error is thrown,
`isProcessing` ends false and the generic error toast is the delivered
notification; the stored decision is unchanged when the decision function
itself throws, but equals the freshly computed decision (not the
pre-cycle value) when the risk evaluation or the backtest throws. -/
theorem C2_error_cycle :
    ∀ (env : Env) (rs : List PatternResult) (e : EnhancedAnalysisResult)
      (fast : List FastResult) (tf mt : String) (st : OrchestratorState),
      rs ≠ [] → e.microPatterns.isSome = true →
      ((env.makeDecision (buildFactors rs e) tf mt = .error () →
          (runEffect env (some rs) (some e) fast tf mt st).1
            = { st with isProcessing := false } ∧
          (runEffect env (some rs) (some e) fast tf mt st).2.notifications
            = [errorToast]) ∧
       (∀ d, env.makeDecision (buildFactors rs e) tf mt = .ok d →
          d.action ≠ .WAIT →
          env.evalRisk (mkRiskRequest d tf (buildFactors rs e)) = .error () →
          (runEffect env (some rs) (some e) fast tf mt st).1
            = { aiDecision := some d, isProcessing := false } ∧
          (runEffect env (some rs) (some e) fast tf mt st).2.notifications
            = [errorToast]) ∧
       (∀ d, env.makeDecision (buildFactors rs e) tf mt = .ok d →
          (d.action = .WAIT ∨
            env.evalRisk (mkRiskRequest d tf (buildFactors rs e)) = .ok ()) →
          5 < fast.length →
          env.runBacktest (fast.map (mapBacktestEntry tf)) = .error () →
          (runEffect env (some rs) (some e) fast tf mt st).1
            = { aiDecision := some d, isProcessing := false } ∧
          (runEffect env (some rs) (some e) fast tf mt st).2.notifications
            = [errorToast])) := by
  intro env rs e fast tf mt st hrs hmp
  refine ⟨?_, ?_, ?_⟩
  · intro hd
    rw [runEffect_open hrs hmp, runTimeoutBody_throw hd]
    exact ⟨rfl, rfl⟩
  · intro d hd hw hr
    rw [runEffect_open hrs hmp, runTimeoutBody_ok hd, if_neg hw, hr]
    exact ⟨rfl, rfl⟩
  · intro d hd hdisj hf hb
    rw [runEffect_open hrs hmp, runTimeoutBody_ok hd]
    by_cases hw : d.action = .WAIT
    · rw [if_pos hw]
      exact ⟨afterRiskStep_state, afterRiskStep_backtest_throw hf hb⟩
    · rcases hdisj with h | h
      · exact absurd h hw
      · rw [if_neg hw, h]
        exact ⟨afterRiskStep_state, afterRiskStep_backtest_throw hf hb⟩

/-- C2, witness: the decision-throw case of the amended theorem at a
concrete cycle (state unchanged apart from the busy flag, error toast
delivered). -/
theorem C2_error_cycle_witness :
    (rsOne ≠ [] ∧ enhancedOk.microPatterns.isSome = true ∧
     envDecThrow.makeDecision (buildFactors rsOne enhancedOk) "1m" "otc" = .error ()) ∧
    ((runEffect envDecThrow (some rsOne) (some enhancedOk) [] "1m" "otc" stIdle).1
       = { stIdle with isProcessing := false } ∧
     (runEffect envDecThrow (some rsOne) (some enhancedOk) [] "1m" "otc" stIdle).2.notifications
       = [errorToast]) :=
  ⟨⟨by simp [rsOne], rfl, rfl⟩,
    (C2_error_cycle envDecThrow rsOne enhancedOk [] "1m" "otc" stIdle
      (by simp [rsOne]) rfl).1 rfl⟩

end AutonomousAI
